import Mathlib

/-!
Verification development for the WatchPlant `mu_interface` repository.

We give a shallow embedding of the core pipeline:
* `WatchdogCounter` (`Sensor/cybres_mu.py`): liveness watchdog with its
  limit-update rule and rate-limited reporting.  Wall-clock times and
  durations are modelled as rationals, and the current time is passed
  explicitly to `check`; the regex match `re.match(target, data)` is
  abstracted as a boolean input.
* `Cybres_MU` frame decoding (`find_start` / `get_next`): a pure function
  over the pending byte (character) stream.  The two watchdog calls inside
  the loops only emit log messages and never influence the returned line,
  so they are omitted from the decoding functions.
* `Sensor_Node.classify_message` / `transform_data`
  (`Sensor/sensor_node.py`): stateful record classification.  The mutable
  fields `self.mu_id` / `self.mu_mm` become an explicit state record, and
  Python exceptions become an `Except PyErr` value so that the partial
  state mutations performed before an exception are visible.
  `self.additionalSensors` is `[]` in the source and never mutated, so the
  additional-sensor branch is the identity and the header boolean is
  `false`.
* `HTTPClient.send` and its success window (`Utilities/HTTP_client.py`):
  the bounded queue becomes a list with the `put_nowait` capacity test,
  and the `deque(maxlen=10)` success tracker becomes a list with explicit
  eviction.  Only the enabled client (`self.enabled = True`) is modelled;
  network outcomes of `add_data` are abstracted as the boolean that the
  source appends to the tracker.

Python strings are modelled as `List Char` (written `PyStr`) so that all
string operations are structurally recursive and evaluate by `decide`.
-/

/-! ## Python string semantics -/

/-- A Python string, as its character sequence. -/
abbrev PyStr := List Char

/-- Auxiliary scanner for `pySplitChar`. -/
def pySplitCharAux (sep : Char) : PyStr → PyStr → List PyStr
  | [], acc => [acc.reverse]
  | c :: rest, acc =>
    if c = sep then acc.reverse :: pySplitCharAux sep rest []
    else pySplitCharAux sep rest (c :: acc)

/-- Python `s.split(sep)` for a one-character separator: keeps empty
pieces, `"".split(sep) == [""]`. -/
def pySplitChar (sep : Char) (s : PyStr) : List PyStr := pySplitCharAux sep s []

/-- Auxiliary scanner for `pySplitCRLF`. -/
def pySplitCRLFAux : PyStr → PyStr → List PyStr
  | '\r' :: '\n' :: rest, acc => acc.reverse :: pySplitCRLFAux rest []
  | c :: rest, acc => pySplitCRLFAux rest (c :: acc)
  | [], acc => [acc.reverse]

/-- Python `s.split("\r\n")`. -/
def pySplitCRLF (s : PyStr) : List PyStr := pySplitCRLFAux s []

/-- Auxiliary scanner for `pySplitWs`. -/
def pySplitWsAux : PyStr → PyStr → List PyStr
  | [], acc => [acc.reverse]
  | c :: rest, acc =>
    if c.isWhitespace then acc.reverse :: pySplitWsAux rest []
    else pySplitWsAux rest (c :: acc)

/-- Python `s.split()` (no separator): split on whitespace, dropping empty
pieces. -/
def pySplitWs (s : PyStr) : List PyStr :=
  (pySplitWsAux s []).filter (fun p => p ≠ [])

/-- Python `s.strip()` restricted to ASCII whitespace. -/
def pyStrip (s : PyStr) : PyStr :=
  ((s.dropWhile Char.isWhitespace).reverse.dropWhile Char.isWhitespace).reverse

/-- The numeric value of a digit string. -/
def digitsToNat (ds : PyStr) : ℕ :=
  ds.foldl (fun n c => 10 * n + (c.toNat - '0'.toNat)) 0

/-- A nonempty, all-digit string. -/
def allDigits (ds : PyStr) : Bool := ds ≠ [] && ds.all Char.isDigit

/-- Python `int(s)`: strip whitespace, optional sign, then decimal digits;
anything else raises `ValueError` (modelled as `none`). -/
def pyInt (s : PyStr) : Option ℤ :=
  match pyStrip s with
  | '-' :: ds => if allDigits ds then some (-(digitsToNat ds : ℤ)) else none
  | '+' :: ds => if allDigits ds then some (digitsToNat ds : ℤ) else none
  | ds => if allDigits ds then some (digitsToNat ds : ℤ) else none

/-- `[int(elem) for elem in xs]`: the comprehension raises (yields `none`)
as soon as one element is not numeric. -/
def pyIntList : List PyStr → Option (List ℤ)
  | [] => some []
  | s :: rest =>
    match pyInt s, pyIntList rest with
    | some v, some vs => some (v :: vs)
    | _, _ => none

/-- Python truncation `int(x)` on a number: toward zero. -/
def pyTrunc (x : ℚ) : ℤ := if 0 ≤ x then ⌊x⌋ else ⌈x⌉

/-- Python `round(x)` to an integer: round half to even. -/
def pyRoundHalfEven (x : ℚ) : ℤ :=
  let f := ⌊x⌋
  let r := x - f
  if r < 1/2 then f
  else if 1/2 < r then f + 1
  else if f % 2 = 0 then f else f + 1

/-- Python `round(x, 1)`: round half to even at one decimal digit. -/
def pyRound1 (x : ℚ) : ℚ := (pyRoundHalfEven (10 * x) : ℚ) / 10

example : pyInt "123".toList = some 123 := by decide
example : pyInt " +7 ".toList = some 7 := by decide
example : pyInt "-4".toList = some (-4) := by decide
example : pyInt "X".toList = none := by decide
example : pyInt "".toList = none := by decide
example : pySplitChar '#' "a#b c#".toList =
    ["a".toList, "b c".toList, "".toList] := by decide
example : pySplitWs "#id  7 ".toList = ["#id".toList, "7".toList] := by decide
example : pySplitCRLF "a\r\n#id 7".toList = ["a".toList, "#id 7".toList] := by
  decide

/-! ## WatchdogCounter (`Sensor/cybres_mu.py`, class `WatchdogCounter`) -/

structure WatchdogCounter where
  timeout_multiplier : ℚ
  timeout_value : ℚ
  limit : ℚ
  last_valid : Option ℚ
  last_report : ℤ
deriving DecidableEq

/-- `WatchdogCounter.update_limit`: recompute `limit`, flooring the
multiplier at 5 when the interval is below 1.5 s. -/
def WatchdogCounter.update_limit (w : WatchdogCounter) (timeout_value : ℚ) :
    WatchdogCounter :=
  let timeout_multiplier :=
    if timeout_value < 3/2 then max 5 w.timeout_multiplier
    else w.timeout_multiplier
  { w with timeout_value := timeout_value,
           limit := timeout_multiplier * timeout_value }

/-- `WatchdogCounter.__init__`: store the parameters, then call
`update_limit` with the construction-time interval; `last_valid` starts
unset and `last_report` at 0. -/
def WatchdogCounter.init (timeout_multiplier timeout_value : ℚ) :
    WatchdogCounter :=
  WatchdogCounter.update_limit
    { timeout_multiplier := timeout_multiplier
      timeout_value := timeout_value
      limit := 0
      last_valid := none
      last_report := 0 } timeout_value

/-- `WatchdogCounter.check(data, target)`.  `now` is the wall clock during
the call; `matched` is the result of `re.match(target, data)`.  Returns the
new state together with `(within_limit, relative_delay, do_report)`. -/
def WatchdogCounter.check (w : WatchdogCounter) (now : ℚ) (matched : Bool) :
    WatchdogCounter × Bool × ℚ × Bool :=
  let last_valid := if matched then now else w.last_valid.getD now
  let delay := now - last_valid
  let relative_delay := pyRound1 (delay / w.timeout_value)
  if w.limit ≤ delay then
    if pyTrunc relative_delay ≠ w.last_report then
      ({ w with last_valid := some last_valid,
                last_report := pyTrunc relative_delay },
       false, relative_delay, true)
    else
      ({ w with last_valid := some last_valid }, false, relative_delay, false)
  else
    ({ w with last_valid := some last_valid }, true, relative_delay, false)

/-- A sequence of `check` calls: each list element is `(now, matched)`. -/
def WatchdogCounter.runChecks (w : WatchdogCounter) :
    List (ℚ × Bool) → WatchdogCounter × List (Bool × ℚ × Bool)
  | [] => (w, [])
  | (now, m) :: rest =>
    let r := w.check now m
    let rr := r.1.runChecks rest
    (rr.1, r.2 :: rr.2)

/-- Number of calls in a result list whose `do_report` flag is set. -/
def reportsIn (outs : List (Bool × ℚ × Bool)) : ℕ :=
  (outs.filter (fun o => o.2.2)).length

/-! ## Frame decoding (`Sensor/cybres_mu.py`, class `Cybres_MU`) -/

/-- The decoder state: the most recently consumed character
(`self.start_char`, initialised to `"Z"` in `__init__`). -/
structure MUState where
  start_char : Char
deriving DecidableEq

/-- `Cybres_MU.find_start`: consume characters until an `'A'` is read;
returns the remaining input.  `none` models the device staying silent
forever (the Python loop would block).  The watchdog calls inside the loop
only log and do not affect the result. -/
def find_start : List Char → Option (List Char)
  | [] => none
  | c :: rest => if c = 'A' then some rest else find_start rest

/-- The read loop inside `Cybres_MU.get_next`: accumulate characters until
a `'Z'` is read; returns the accumulated line and the remaining input. -/
def collect_line : List Char → List Char → Option (List Char × List Char)
  | [], _ => none
  | c :: rest, acc =>
    if c = 'Z' then some (acc, rest) else collect_line rest (acc ++ [c])

/-- `Cybres_MU.get_next`: seek the start marker if the last consumed
character was not `'A'`, then collect until the end marker and return
`line[:-1]` (the trailing control character is dropped).  After a
successful return `start_char = 'Z'` (the final loop assignment). -/
def get_next (st : MUState) (input : List Char) :
    Option (List Char × MUState × List Char) :=
  match (if st.start_char ≠ 'A' then find_start input else some input) with
  | none => none
  | some inp =>
    match collect_line inp [] with
    | none => none
    | some (line, rest) => some (line.dropLast, ⟨'Z'⟩, rest)

/-- Repeatedly call `get_next` until the input is exhausted, collecting the
decoded lines.  The fuel only serves termination; `decode` supplies enough
fuel to consume the whole input. -/
def get_all : ℕ → MUState → List Char → List (List Char)
  | 0, _, _ => []
  | fuel + 1, st, input =>
    match get_next st input with
    | none => []
    | some (line, st', rest) => line :: get_all fuel st' rest

/-- All lines decoded from a byte sequence, starting from the constructed
state (`start_char = 'Z'`, i.e. Seeking). -/
def decode (input : List Char) : List (List Char) :=
  get_all (input.length + 1) ⟨'Z'⟩ input

example : decode ('A' :: "hi".toList ++ ['\r', 'Z']) = ["hi".toList] := by
  decide

/-! ## Record classification (`Sensor/sensor_node.py`, class `Sensor_Node`)

Only the fields of `Sensor_Node` that `classify_message` and
`transform_data` read or write are modelled: `hostname` (read-only) and
the sticky pair `mu_id` / `mu_mm` (both initialised to 0 in `__init__`).
-/

deriving instance DecidableEq for Except

structure Sensor_Node where
  hostname : String
  mu_id : ℤ
  mu_mm : ℤ
deriving DecidableEq

/-- The exception classes the try-block in `classify_message` can raise. -/
inductive PyErr
  | valueError
  | indexError
  | keyError
deriving DecidableEq

/-- The exception classes named by the `except` clause of
`classify_message`: `(ValueError, IndexError, KeyError)`. -/
def caughtByClassify : PyErr → Bool
  | .valueError => true
  | .indexError => true
  | .keyError => true

/-- The MQTT header tuple `(self.hostname, messagetype,
bool(self.additionalSensors))`; `additionalSensors` is empty, so the
boolean is always `false`. -/
abbrev MsgHeader := String × ℕ × Bool

/-- The payload of a classified message: for message types 1 and 2 the
list `[self.hostname, mm, id, timestamp] + measurements`, for message
type 0 (header) the raw line. -/
inductive MuPayload
  | dataRec (hostname : String) (mu_mm mu_id : ℤ) (timestamp : ℤ)
      (measurements : List ℤ)
  | headerRec (raw : PyStr)
deriving DecidableEq

/-- `Sensor_Node.transform_data`: split on single spaces, discard the
first token, parse the remaining tokens as integers; the timestamp is the
wall clock (`now`), which the caller supplies. -/
def Sensor_Node.transform_data (now : ℤ) (string_data : PyStr) :
    Option (ℤ × List ℤ) :=
  match pyIntList ((pySplitChar ' ' string_data).drop 1) with
  | none => none
  | some measurements => some (now, measurements)

/-- The token-pair extraction in the `counter == 4` branch:
`[line.split() for line in mu_line.split("\r\n") if line.startswith("#")]`
followed by the dict comprehension `{line[0]: line[1] for line in lines}`.
`none` models the `IndexError` raised when a `#` sub-line has fewer than
two whitespace-separated tokens. -/
def headerTokenPairs (mu_line : PyStr) : Option (List (PyStr × PyStr)) :=
  let hashLines := (pySplitCRLF mu_line).filter (fun l => "#".toList.isPrefixOf l)
  hashLines.foldr (fun line rest =>
    match rest with
    | none => none
    | some ps =>
      let toks := pySplitWs line
      match toks.get? 0, toks.get? 1 with
      | some k, some v => some ((k, v) :: ps)
      | _, _ => none) (some [])

/-- Python dict lookup on the association list built by the comprehension:
a later duplicate key overwrites an earlier one; `none` is `KeyError`. -/
def dictGet (ps : List (PyStr × PyStr)) (k : PyStr) : Option PyStr :=
  (ps.reverse.find? (fun p => p.1 = k)).map (fun p => p.2)

/-- The body of the `try` block in `Sensor_Node.classify_message`,
dispatching on the number of `'#'` characters.  Returns the node state as
mutated up to the point of a raise, and either the raised exception or
the `(header, payload)` result (`none` standing for the `return None, []`
of the unknown-count branch). -/
def Sensor_Node.classifyBody (st : Sensor_Node) (now : ℤ) (mu_line : PyStr) :
    Sensor_Node × Except PyErr (Option (MsgHeader × MuPayload)) :=
  let counter := mu_line.count '#'
  if counter = 0 then
    -- Line is pure data message; ID and MM are taken from the sticky state.
    match Sensor_Node.transform_data now mu_line with
    | none => (st, .error .valueError)
    | some (timestamp, measurements) =>
      (st, .ok (some ((st.hostname, 1, false),
        .dataRec st.hostname st.mu_mm st.mu_id timestamp measurements)))
  else if counter = 2 then
    -- Line is data message / id / measurement mode.  NOTE: the source
    -- assigns the parsed values to the local variables `mu_id` / `mu_mm`,
    -- not to `self.mu_id` / `self.mu_mm`, so the sticky state is unchanged.
    let messages := pySplitChar '#' mu_line
    match messages.get? 1 with
    | none => (st, .error .indexError)
    | some m1 =>
      match (pySplitChar ' ' m1).get? 1 with
      | none => (st, .error .indexError)
      | some idTok =>
        match pyInt idTok with
        | none => (st, .error .valueError)
        | some mu_id =>
          match messages.get? 2 with
          | none => (st, .error .indexError)
          | some m2 =>
            match (pySplitChar ' ' m2).get? 1 with
            | none => (st, .error .indexError)
            | some mmTok =>
              match pyInt mmTok with
              | none => (st, .error .valueError)
              | some mu_mm =>
                match messages.get? 0 with
                | none => (st, .error .indexError)
                | some m0 =>
                  match Sensor_Node.transform_data now m0 with
                  | none => (st, .error .valueError)
                  | some (timestamp, measurements) =>
                    (st, .ok (some ((st.hostname, 2, false),
                      .dataRec st.hostname mu_mm mu_id timestamp measurements)))
  else if counter = 4 then
    -- Line is header: `self.mu_id` is assigned before `self.mu_mm`, so a
    -- failure on the `#ta` lookup leaves `mu_id` already overwritten.
    match headerTokenPairs mu_line with
    | none => (st, .error .indexError)
    | some pairs =>
      match dictGet pairs "#id".toList with
      | none => (st, .error .keyError)
      | some idStr =>
        match pyInt idStr with
        | none => (st, .error .valueError)
        | some newId =>
          let st := { st with mu_id := newId }
          match dictGet pairs "#ta".toList with
          | none => (st, .error .keyError)
          | some taStr =>
            match pyInt taStr with
            | none => (st, .error .valueError)
            | some newMm =>
              ({ st with mu_mm := newMm },
               .ok (some ((st.hostname, 0, false), .headerRec mu_line)))
  else
    -- Unknown data type: logged, then `return None, []`.
    (st, .ok none)

/-- `Sensor_Node.classify_message`: run the try-block body and convert the
exceptions named in the `except` clause into the `return None, []` result.
An `Except.error` in the final result would be an exception escaping the
classifier. -/
def Sensor_Node.classify_message (st : Sensor_Node) (now : ℤ)
    (mu_line : PyStr) :
    Sensor_Node × Except PyErr (Option (MsgHeader × MuPayload)) :=
  match Sensor_Node.classifyBody st now mu_line with
  | (st', .ok r) => (st', .ok r)
  | (st', .error e) =>
    if caughtByClassify e then (st', .ok none) else (st', .error e)

/-- Classify a sequence of decoded lines, threading the sticky state; each
input is `(now, line)`. -/
def Sensor_Node.classifyStream (st : Sensor_Node) :
    List (ℤ × PyStr) →
      Sensor_Node × List (Except PyErr (Option (MsgHeader × MuPayload)))
  | [] => (st, [])
  | (now, l) :: rest =>
    let r := Sensor_Node.classify_message st now l
    let rr := Sensor_Node.classifyStream r.1 rest
    (rr.1, r.2 :: rr.2)

example :
    Sensor_Node.classify_message ⟨"h", 0, 0⟩ 11 "X 100 200 300".toList =
      (⟨"h", 0, 0⟩, .ok (some (("h", 1, false),
        .dataRec "h" 0 0 11 [100, 200, 300]))) := by decide

example :
    Sensor_Node.classify_message ⟨"h", 0, 0⟩ 11
        "s\r\n#id 7\r\n#ta 3\r\n#p 1\r\n#q 2".toList =
      (⟨"h", 7, 3⟩, .ok (some (("h", 0, false),
        .headerRec "s\r\n#id 7\r\n#ta 3\r\n#p 1\r\n#q 2".toList))) := by decide

example :
    Sensor_Node.classify_message ⟨"h", 0, 0⟩ 11 "d 1#id 5 #ta 6".toList =
      (⟨"h", 0, 0⟩, .ok (some (("h", 2, false),
        .dataRec "h" 6 5 11 [1]))) := by decide

/-! ## Delivery queue and success window
(`Utilities/HTTP_client.py`, class `HTTPClient`) -/

/-- The fields of the enabled `HTTPClient` touched by `send` and by the
worker's `add_data` outcome bookkeeping: the bounded queue
(`queue.Queue(maxsize=10)`) and the success window
(`deque([True] * 10, maxlen=10)`).  `τ` is the type of queued tasks
(`(timestamp, data)` pairs in the source). -/
structure HTTPClient (τ : Type) where
  queue : List τ
  success_tracker : List Bool
deriving DecidableEq

/-- `queue.Queue(maxsize=10)`. -/
def HTTPClient.maxsize : ℕ := 10

/-- `deque([True] * 10, maxlen=10)`: the window starts filled with ten
successes. -/
def HTTPClient.initial_success_tracker : List Bool := List.replicate 10 true

/-- The rolling failure ratio returned by `send`:
`self.success_tracker.count(False) / len(self.success_tracker)`. -/
def HTTPClient.fail_rate (w : List Bool) : ℚ :=
  (w.count false : ℚ) / (w.length : ℚ)

/-- `HTTPClient.send`: `put_nowait` the task; on `queue.Full` raise
`RuntimeError` (the `Except.error` case), otherwise return the failure
ratio.  `put_nowait` fails exactly when the queue already holds `maxsize`
items. -/
def HTTPClient.send {τ : Type} (c : HTTPClient τ) (task : τ) :
    HTTPClient τ × Except String ℚ :=
  if HTTPClient.maxsize ≤ c.queue.length then
    (c, .error "HTTP client queue is full. This means the client is stuck.")
  else
    ({ c with queue := c.queue ++ [task] },
     .ok (HTTPClient.fail_rate c.success_tracker))

/-- `deque.append` with `maxlen = 10`: the oldest element is evicted when
the deque is full. -/
def dequeAppend (w : List Bool) (b : Bool) : List Bool :=
  (w ++ [b]).drop (w.length + 1 - 10)

/-- The effect of one `add_data` call on the success window: every return
path of `add_data` appends exactly one boolean outcome (False on a
validation error, timeout, connection error or non-2xx response, True on
success). -/
def HTTPClient.record_outcome {τ : Type} (c : HTTPClient τ) (outcome : Bool) :
    HTTPClient τ :=
  { c with success_tracker := dequeAppend c.success_tracker outcome }

/-- A sequence of `send` calls, collecting each call's result. -/
def HTTPClient.sendAll {τ : Type} (c : HTTPClient τ) :
    List τ → HTTPClient τ × List (Except String ℚ)
  | [] => (c, [])
  | t :: ts =>
    let r := HTTPClient.send c t
    let rr := HTTPClient.sendAll r.1 ts
    (rr.1, r.2 :: rr.2)

example :
    (HTTPClient.send ⟨[], HTTPClient.initial_success_tracker⟩ (0 : ℕ)).2 =
      .ok 0 := by
  norm_num [HTTPClient.send, HTTPClient.fail_rate,
    HTTPClient.initial_success_tracker, HTTPClient.maxsize,
    List.count_replicate]

example : dequeAppend HTTPClient.initial_success_tracker false =
    List.replicate 9 true ++ [false] := by decide

/-! ## Theorems -/

/-- The watchdog invariant from the specification: the limit equals the
effective multiplier times the base interval, with the multiplier floored
at 5 below 1.5 s. -/
def WatchdogInv (w : WatchdogCounter) : Prop :=
  w.limit =
    (if w.timeout_value < 3/2 then max 5 w.timeout_multiplier
     else w.timeout_multiplier) * w.timeout_value

/-- `check` never touches the configuration fields that the limit
invariant mentions. -/
theorem check_preserves_config (w : WatchdogCounter) (now : ℚ) (m : Bool) :
    (w.check now m).1.limit = w.limit ∧
    (w.check now m).1.timeout_value = w.timeout_value ∧
    (w.check now m).1.timeout_multiplier = w.timeout_multiplier := by
  unfold WatchdogCounter.check
  dsimp only
  split_ifs <;> exact ⟨rfl, rfl, rfl⟩

/-- Claim C6: the invariant `limit = effectiveMultiplier * baseInterval`
(with `effectiveMultiplier = max(multiplier, 5)` for `baseInterval < 1.5`
and `= multiplier` otherwise) holds after construction, after every
`update_limit` call, and is preserved by every `check` call. -/
theorem watchdog_limit_invariant :
    (∀ tm tv, WatchdogInv (WatchdogCounter.init tm tv)) ∧
    (∀ (w : WatchdogCounter) (tv : ℚ), WatchdogInv (w.update_limit tv)) ∧
    (∀ (w : WatchdogCounter) (now : ℚ) (m : Bool),
      WatchdogInv w → WatchdogInv ((w.check now m).1)) := by
  refine ⟨?_, ?_, ?_⟩
  · intro tm tv
    simp [WatchdogCounter.init, WatchdogCounter.update_limit, WatchdogInv]
  · intro w tv
    simp [WatchdogCounter.update_limit, WatchdogInv]
  · intro w now m h
    obtain ⟨h1, h2, h3⟩ := check_preserves_config w now m
    unfold WatchdogInv at h ⊢
    rw [h1, h2, h3]
    exact h

/-- Witness for C6: the invariant holds after a concrete construction and
a concrete `check` call. -/
theorem watchdog_limit_invariant_witness :
    WatchdogInv (((WatchdogCounter.init 3 10).check 0 true).1) :=
  watchdog_limit_invariant.2.2 _ 0 true (watchdog_limit_invariant.1 3 10)

/-- Claim C5: decoding `'A' + "hello" + <ctrl> + 'Z'` from the Seeking
state yields exactly one decoded line, equal to `"hello"` — start marker,
end marker and the trailing control character are all stripped. -/
theorem decode_roundtrip (ctrl : Char) (h : ctrl ≠ 'Z') :
    decode ('A' :: "hello".toList ++ [ctrl, 'Z']) = ["hello".toList] := by
  have h5 : "hello".toList = ['h', 'e', 'l', 'l', 'o'] := rfl
  rw [h5]
  simp [decode, get_all, get_next, find_start, collect_line, h]

/-- Witness for C5 at the concrete control character `'\r'`. -/
theorem decode_roundtrip_witness :
    decode ('A' :: "hello".toList ++ ['\r', 'Z']) = ["hello".toList] :=
  decode_roundtrip '\r' (by decide)

/-- Counterexample to C2 as stated: with ten tasks pending, `send` raises
`RuntimeError` instead of returning the failure ratio. -/
theorem send_full_raises_cex :
    (HTTPClient.send
        ⟨List.replicate 10 (0 : ℕ), HTTPClient.initial_success_tracker⟩
        0).2 =
      Except.error
        "HTTP client queue is full. This means the client is stuck." := by
  decide

/-- Claim C2 (amended): `send` returns the rolling failure ratio
`count(False) / len(success_tracker)` on every call made while the queue
holds fewer than 10 tasks; when the queue is full it raises `RuntimeError`
instead of returning. -/
theorem send_returns_fail_rate (τ : Type) (c : HTTPClient τ) (t : τ)
    (h : c.queue.length < HTTPClient.maxsize) :
    HTTPClient.send c t =
      ({ c with queue := c.queue ++ [t] },
       .ok (HTTPClient.fail_rate c.success_tracker)) := by
  unfold HTTPClient.send
  rw [if_neg (by omega)]

/-- Witness for C2 (amended) on an empty queue. -/
theorem send_returns_fail_rate_witness :
    HTTPClient.send
        (⟨[], HTTPClient.initial_success_tracker⟩ : HTTPClient ℕ) 0 =
      (⟨[0], HTTPClient.initial_success_tracker⟩,
       .ok (HTTPClient.fail_rate HTTPClient.initial_success_tracker)) :=
  send_returns_fail_rate ℕ _ 0 (by decide)

/-- Claim C8: starting from an empty queue, ten `send` calls all succeed
(each returning the failure ratio) and fill the queue to its capacity of
10; the eleventh call fails immediately with `RuntimeError`, leaving the
queue unchanged and issuing no request. -/
theorem send_capacity_ten (τ : Type) (w : List Bool) (t : τ) :
    ((HTTPClient.sendAll ⟨[], w⟩ (List.replicate 10 t)).2 =
      List.replicate 10 (.ok (HTTPClient.fail_rate w))) ∧
    (HTTPClient.sendAll ⟨[], w⟩ (List.replicate 10 t)).1.queue.length = 10 ∧
    ((HTTPClient.send (HTTPClient.sendAll ⟨[], w⟩ (List.replicate 10 t)).1
        t).2 =
      .error "HTTP client queue is full. This means the client is stuck.") ∧
    (HTTPClient.send (HTTPClient.sendAll ⟨[], w⟩ (List.replicate 10 t)).1
        t).1 =
      (HTTPClient.sendAll ⟨[], w⟩ (List.replicate 10 t)).1 := by
  have hall :
      HTTPClient.sendAll (⟨[], w⟩ : HTTPClient τ) (List.replicate 10 t) =
        (⟨List.replicate 10 t, w⟩,
         List.replicate 10 (.ok (HTTPClient.fail_rate w))) := by
    simp only [show (10 : ℕ) = 9 + 1 from rfl, List.replicate_succ]
    simp [HTTPClient.sendAll, HTTPClient.send, HTTPClient.maxsize,
      List.replicate]
  rw [hall]
  refine ⟨rfl, by simp, ?_, ?_⟩ <;>
    simp [HTTPClient.send, HTTPClient.maxsize]

/-- `foldl` over `dequeAppend` keeps the last ten entries. -/
theorem foldl_dequeAppend (bs : List Bool) :
    ∀ w : List Bool, w.length = 10 →
      List.foldl dequeAppend w bs = (w ++ bs).drop bs.length := by
  induction bs with
  | nil => intro w _; simp
  | cons b bs ih =>
    intro w hw
    have hstep : dequeAppend w b = (w ++ [b]).drop 1 := by
      unfold dequeAppend
      rw [hw]
    have hlen : (dequeAppend w b).length = 10 := by
      rw [hstep]
      simp [hw]
    have h1 : List.foldl dequeAppend w (b :: bs) =
        List.foldl dequeAppend (dequeAppend w b) bs := rfl
    rw [h1, ih _ hlen, hstep,
      ← List.drop_append_of_le_length
        (show 1 ≤ (w ++ [b]).length by simp),
      List.drop_drop]
    simp [List.append_assoc, Nat.add_comm]

/-- Claim C10: the success window is created holding ten `True` entries;
its length is exactly 10 before and after every enqueue and every recorded
delivery outcome; the ratio returned by `send` has a fixed denominator of
10 and equals 0 on every call made before any outcome is recorded; the
pre-filled successes are evicted one per recorded outcome. -/
theorem success_window_invariants :
    (HTTPClient.initial_success_tracker.length = 10 ∧
      HTTPClient.initial_success_tracker = List.replicate 10 true) ∧
    (∀ (w : List Bool) (b : Bool), w.length = 10 →
      (dequeAppend w b).length = 10 ∧ dequeAppend w b = w.drop 1 ++ [b]) ∧
    (∀ (τ : Type) (c : HTTPClient τ) (t : τ),
      (HTTPClient.send c t).1.success_tracker = c.success_tracker) ∧
    (∀ (τ : Type) (q : List τ) (t : τ), q.length < 10 →
      (HTTPClient.send ⟨q, HTTPClient.initial_success_tracker⟩ t).2 =
        .ok 0) ∧
    (∀ bs : List Bool, bs.length ≤ 10 →
      List.foldl dequeAppend HTTPClient.initial_success_tracker bs =
        List.replicate (10 - bs.length) true ++ bs) := by
  refine ⟨⟨rfl, rfl⟩, ?_, ?_, ?_, ?_⟩
  · intro w b hw
    have hstep : dequeAppend w b = (w ++ [b]).drop 1 := by
      unfold dequeAppend
      rw [hw]
    refine ⟨?_, ?_⟩
    · rw [hstep]
      simp [hw]
    · rw [hstep, List.drop_append_of_le_length (by omega)]
  · intro τ c t
    unfold HTTPClient.send
    split <;> rfl
  · intro τ q t h
    unfold HTTPClient.send
    rw [if_neg (by simp [HTTPClient.maxsize]; omega)]
    simp [HTTPClient.fail_rate, HTTPClient.initial_success_tracker,
      List.count_replicate]
  · intro bs hbs
    rw [foldl_dequeAppend bs HTTPClient.initial_success_tracker rfl]
    rw [show HTTPClient.initial_success_tracker = List.replicate 10 true
      from rfl]
    rw [List.drop_append_eq_append_drop, List.drop_replicate]
    have h10 : (List.replicate 10 true).length = 10 := by simp
    rw [h10, Nat.sub_eq_zero_of_le hbs, List.drop_zero]

/-- A concrete Header line (four `'#'` characters) carrying `#id 7` and
`#ta 3`. -/
def headerLine73 : PyStr := "s\r\n#id 7\r\n#ta 3\r\n#p 1\r\n#q 2".toList

/-- Classifying the Data line `"X 100 200 300"` from any sticky state
returns that state unchanged and a type-1 record carrying the sticky id
and mode, with the first token discarded. -/
theorem classify_data_line (h : String) (i m t : ℤ) :
    Sensor_Node.classify_message ⟨h, i, m⟩ t "X 100 200 300".toList =
      (⟨h, i, m⟩,
       .ok (some ((h, 1, false), .dataRec h m i t [100, 200, 300]))) := rfl

/-- Classifying any number of `"X 100 200 300"` Data lines from the sticky
state `(id = 7, mode = 3)` leaves the state unchanged and produces the
corresponding records. -/
theorem classifyStream_data (h : String) (ts : List ℤ) :
    Sensor_Node.classifyStream ⟨h, 7, 3⟩
        (ts.map (fun t => (t, "X 100 200 300".toList))) =
      (⟨h, 7, 3⟩,
       ts.map (fun t => .ok (some ((h, 1, false),
         .dataRec h 3 7 t [100, 200, 300])))) := by
  induction ts with
  | nil => rfl
  | cons t ts ih =>
    simp only [List.map_cons, Sensor_Node.classifyStream, classify_data_line]
    rw [ih]

/-- Claim C3: after a Header line carrying `#id 7` and `#ta 3` is
classified, the sticky state is `(7, 3)`, and every subsequent
`"X 100 200 300"` Data line (any number of them, no intervening Header)
yields a record with `deviceId = 7`, `measurementMode = 3` and values
`[100, 200, 300]`, the first space-separated token being discarded. -/
theorem classify_header_then_data_stream (st : Sensor_Node) (nowH : ℤ)
    (ts : List ℤ) :
    (Sensor_Node.classify_message st nowH headerLine73).1 =
      ⟨st.hostname, 7, 3⟩ ∧
    (Sensor_Node.classify_message st nowH headerLine73).2 =
      .ok (some ((st.hostname, 0, false), .headerRec headerLine73)) ∧
    (Sensor_Node.classifyStream ⟨st.hostname, 7, 3⟩
        (ts.map (fun t => (t, "X 100 200 300".toList)))).2 =
      ts.map (fun t => .ok (some ((st.hostname, 1, false),
        .dataRec st.hostname 3 7 t [100, 200, 300]))) ∧
    (Sensor_Node.classifyStream ⟨st.hostname, 7, 3⟩
        (ts.map (fun t => (t, "X 100 200 300".toList)))).1 =
      ⟨st.hostname, 7, 3⟩ := by
  obtain ⟨h, i, m⟩ := st
  refine ⟨rfl, rfl, ?_, ?_⟩ <;> rw [classifyStream_data]

/-- The wrapper `classify_message` returns the same state component as the
try-block body (the `except` clause does not restore state). -/
theorem classify_message_fst_eq (st : Sensor_Node) (now : ℤ) (l : PyStr) :
    (Sensor_Node.classify_message st now l).1 =
      (Sensor_Node.classifyBody st now l).1 := by
  unfold Sensor_Node.classify_message
  rcases hb : Sensor_Node.classifyBody st now l with ⟨st', r⟩
  cases r with
  | ok v => rfl
  | error e => cases e <;> rfl

/-- The `counter == 2` branch only assigns the local variables `mu_id` and
`mu_mm`, so the node state is returned unchanged on every path. -/
theorem classifyBody_count2_fst (st : Sensor_Node) (now : ℤ) (l : PyStr)
    (h2 : l.count '#' = 2) :
    (Sensor_Node.classifyBody st now l).1 = st := by
  unfold Sensor_Node.classifyBody
  dsimp only
  rw [h2, if_neg (by norm_num), if_pos rfl]
  repeat' split
  all_goals rfl

/-- Counterexample to C1 as stated: classifying the two-`'#'` line
`"d 1#id 5 #ta 6"` yields a DataWithMeta record carrying `id = 5`,
`mode = 6`, but the next Data record does **not** carry `deviceId = 5`
and `measurementMode = 6` — the sticky state was not refreshed. -/
theorem classify_meta_not_sticky_cex :
    (Sensor_Node.classify_message ⟨"h", 0, 0⟩ 5 "d 1#id 5 #ta 6".toList).2 =
      .ok (some (("h", 2, false), .dataRec "h" 6 5 5 [1])) ∧
    (Sensor_Node.classify_message
        (Sensor_Node.classify_message ⟨"h", 0, 0⟩ 5
          "d 1#id 5 #ta 6".toList).1
        7 "X 1".toList).2 ≠
      .ok (some (("h", 1, false), .dataRec "h" 6 5 7 [1])) := by
  decide

/-- Claim C1 (amended): a well-formed two-`'#'` line yields a DataWithMeta
record whose payload carries the freshly parsed `deviceId = N` and
`measurementMode = M`, but the classifier's sticky state is left
unchanged by every two-`'#'` line, so subsequent Data records keep the
previous sticky `deviceId`/`measurementMode`. -/
theorem classify_meta_keeps_sticky (st : Sensor_Node) (now now' : ℤ)
    (l : PyStr) (h2 : l.count '#' = 2) :
    (Sensor_Node.classify_message st now l).1 = st ∧
    (Sensor_Node.classify_message st now "d 1#id 5 #ta 6".toList).2 =
      .ok (some ((st.hostname, 2, false),
        .dataRec st.hostname 6 5 now [1])) ∧
    (Sensor_Node.classify_message
        (Sensor_Node.classify_message st now "d 1#id 5 #ta 6".toList).1
        now' "X 1".toList).2 =
      .ok (some ((st.hostname, 1, false),
        .dataRec st.hostname st.mu_mm st.mu_id now' [1])) := by
  refine ⟨?_, ?_, ?_⟩
  · rw [classify_message_fst_eq]
    exact classifyBody_count2_fst st now l h2
  · obtain ⟨h, i, m⟩ := st
    rfl
  · obtain ⟨h, i, m⟩ := st
    rfl

/-- Witness for C1 (amended) at a concrete state and times. -/
theorem classify_meta_keeps_sticky_witness :
    (Sensor_Node.classify_message ⟨"h", 1, 2⟩ 5
        "d 1#id 5 #ta 6".toList).1 = ⟨"h", 1, 2⟩ ∧
    (Sensor_Node.classify_message ⟨"h", 1, 2⟩ 5
        "d 1#id 5 #ta 6".toList).2 =
      .ok (some (("h", 2, false), .dataRec "h" 6 5 5 [1])) ∧
    (Sensor_Node.classify_message
        (Sensor_Node.classify_message ⟨"h", 1, 2⟩ 5
          "d 1#id 5 #ta 6".toList).1
        7 "X 1".toList).2 =
      .ok (some (("h", 1, false), .dataRec "h" 2 1 7 [1])) :=
  classify_meta_keeps_sticky ⟨"h", 1, 2⟩ 5 7 "d 1#id 5 #ta 6".toList
    (by decide)

/-- A four-`'#'` header whose `#ta` value is non-numeric. -/
def headerBadTa : PyStr := "x\r\n#id 9\r\n#ta q\r\n#p 1\r\n#q 2".toList

/-- A four-`'#'` header with a numeric `#id` but no `#ta` sub-line. -/
def headerNoTa : PyStr := "x\r\n#id 9\r\n#tb 3\r\n#p 1\r\n#q 2".toList

/-- Claim C9: on a four-`'#'` header with a well-formed `#id 9` but a
missing or non-numeric `#ta`, classification returns "no record", yet the
sticky `mu_id` has already been overwritten with 9 while `mu_mm` keeps its
previous value; a later Data record therefore combines the new id with
the old mode. -/
theorem classify_header_error_partial_sticky (st : Sensor_Node)
    (now now' : ℤ) :
    Sensor_Node.classify_message st now headerBadTa =
      ({ st with mu_id := 9 }, .ok none) ∧
    Sensor_Node.classify_message st now headerNoTa =
      ({ st with mu_id := 9 }, .ok none) ∧
    (Sensor_Node.classify_message { st with mu_id := 9 } now'
        "X 1".toList).2 =
      .ok (some ((st.hostname, 1, false),
        .dataRec st.hostname st.mu_mm 9 now' [1])) := by
  obtain ⟨h, i, m⟩ := st
  exact ⟨rfl, rfl, rfl⟩

/-- Every exception constructor is caught by the classifier's `except`
clause. -/
theorem caughtByClassify_all (e : PyErr) : caughtByClassify e = true := by
  cases e <;> rfl

/-- A list containing a non-numeric token fails integer conversion. -/
theorem pyIntList_eq_none (xs : List PyStr) (tok : PyStr) (hmem : tok ∈ xs)
    (hbad : pyInt tok = none) : pyIntList xs = none := by
  induction xs with
  | nil => cases hmem
  | cons s rest ih =>
    rcases List.mem_cons.mp hmem with h | h
    · subst h
      unfold pyIntList
      rw [hbad]
    · unfold pyIntList
      rw [ih h]
      cases pyInt s <;> rfl

/-- Claim C4: classification is total — every call returns through the
`except (ValueError, IndexError, KeyError)` clause rather than raising;
a `'#'` count other than 0, 2, or 4 yields "no record", and a zero-count
line containing a non-numeric data token also yields "no record". -/
theorem classify_no_uncaught (st : Sensor_Node) (now : ℤ) (l : PyStr) :
    (∃ st' r, Sensor_Node.classify_message st now l = (st', Except.ok r)) ∧
    (l.count '#' ≠ 0 → l.count '#' ≠ 2 → l.count '#' ≠ 4 →
      (Sensor_Node.classify_message st now l).2 = Except.ok none) ∧
    (l.count '#' = 0 →
      (∃ tok ∈ (pySplitChar ' ' l).drop 1, pyInt tok = none) →
      (Sensor_Node.classify_message st now l).2 = Except.ok none) ∧
    (∀ (st' : Sensor_Node) (e : PyErr),
      Sensor_Node.classifyBody st now l = (st', .error e) →
      Sensor_Node.classify_message st now l = (st', Except.ok none)) := by
  refine ⟨?_, ?_, ?_, ?_⟩
  · rcases hb : Sensor_Node.classifyBody st now l with ⟨st', r⟩
    cases r with
    | ok v =>
      exact ⟨st', v, by unfold Sensor_Node.classify_message; rw [hb]⟩
    | error e =>
      refine ⟨st', none, ?_⟩
      unfold Sensor_Node.classify_message
      rw [hb]
      dsimp only
      rw [if_pos (caughtByClassify_all e)]
  · intro h0 h2 h4
    have hb : Sensor_Node.classifyBody st now l = (st, .ok none) := by
      unfold Sensor_Node.classifyBody
      dsimp only
      rw [if_neg h0, if_neg h2, if_neg h4]
    unfold Sensor_Node.classify_message
    rw [hb]
  · intro h0 hbad
    obtain ⟨tok, hmem, htok⟩ := hbad
    have htr : Sensor_Node.transform_data now l = none := by
      unfold Sensor_Node.transform_data
      rw [pyIntList_eq_none _ tok hmem htok]
    have hb : Sensor_Node.classifyBody st now l =
        (st, .error .valueError) := by
      unfold Sensor_Node.classifyBody
      dsimp only
      rw [if_pos h0, htr]
    unfold Sensor_Node.classify_message
    rw [hb]
    dsimp only
    rw [if_pos (caughtByClassify_all _)]
  · intro st' e hb
    unfold Sensor_Node.classify_message
    rw [hb]
    dsimp only
    rw [if_pos (caughtByClassify_all e)]

/-- Witness for C4: an unknown delimiter count, a malformed data token,
and a raised `ValueError` all produce "no record" at concrete inputs. -/
theorem classify_no_uncaught_witness :
    (Sensor_Node.classify_message ⟨"h", 0, 0⟩ 0 "a#b".toList).2 =
      Except.ok none ∧
    (Sensor_Node.classify_message ⟨"h", 0, 0⟩ 0 "X y".toList).2 =
      Except.ok none ∧
    Sensor_Node.classify_message ⟨"h", 0, 0⟩ 0 "X y".toList =
      (⟨"h", 0, 0⟩, Except.ok none) :=
  ⟨(classify_no_uncaught ⟨"h", 0, 0⟩ 0 "a#b".toList).2.1 (by decide)
      (by decide) (by decide),
   (classify_no_uncaught ⟨"h", 0, 0⟩ 0 "X y".toList).2.2.1 (by decide)
      ⟨"y".toList, by decide, by decide⟩,
   (classify_no_uncaught ⟨"h", 0, 0⟩ 0 "X y".toList).2.2.2 ⟨"h", 0, 0⟩
      .valueError (by decide)⟩

/-- Case analysis of one `check` call: a report implies overrun and a
truncated relative delay different from the last reported one, and the
recorded integer is updated exactly on reports. -/
theorem check_report_spec (w : WatchdogCounter) (now : ℚ) (m : Bool) :
    ((w.check now m).2.2.2 = true →
      (w.check now m).2.1 = false ∧
      pyTrunc (w.check now m).2.2.1 ≠ w.last_report ∧
      (w.check now m).1.last_report = pyTrunc (w.check now m).2.2.1) ∧
    ((w.check now m).2.2.2 = false →
      (w.check now m).1.last_report = w.last_report) := by
  unfold WatchdogCounter.check
  dsimp only
  split_ifs <;> refine ⟨fun ht => ?_, fun hf => ?_⟩ <;> simp_all

/-- Unfolding lemma for `runChecks` on a cons cell. -/
theorem runChecks_cons (w : WatchdogCounter) (now : ℚ) (m : Bool)
    (rest : List (ℚ × Bool)) :
    w.runChecks ((now, m) :: rest) =
      (((w.check now m).1.runChecks rest).1,
       (w.check now m).2 :: ((w.check now m).1.runChecks rest).2) := rfl

/-- Counting reports distributes over cons. -/
theorem reportsIn_cons (o : Bool × ℚ × Bool) (outs : List (Bool × ℚ × Bool)) :
    reportsIn (o :: outs) = (if o.2.2 then 1 else 0) + reportsIn outs := by
  simp only [reportsIn, List.filter_cons]
  split_ifs <;> simp [Nat.add_comm]

/-- While the truncated relative delay stays at the recorded integer `k`,
no call reports. -/
theorem runChecks_no_report (k : ℤ) (calls : List (ℚ × Bool)) :
    ∀ w : WatchdogCounter, w.last_report = k →
      (∀ o ∈ (w.runChecks calls).2, pyTrunc o.2.1 = k) →
      reportsIn (w.runChecks calls).2 = 0 := by
  induction calls with
  | nil => intro w _ _; rfl
  | cons c rest ih =>
    obtain ⟨now, m⟩ := c
    intro w hk hall
    rw [runChecks_cons] at hall ⊢
    have hhead : pyTrunc (w.check now m).2.2.1 = k :=
      hall _ (List.mem_cons_self _ _)
    have hnotrep : (w.check now m).2.2.2 = false := by
      cases hb : (w.check now m).2.2.2
      · rfl
      · exact absurd (hhead.trans hk.symm)
          ((check_report_spec w now m).1 hb).2.1
    have hstate : (w.check now m).1.last_report = k := by
      rw [(check_report_spec w now m).2 hnotrep, hk]
    have htail := ih (w.check now m).1 hstate
      (fun o ho => hall o (List.mem_cons_of_mem _ ho))
    rw [reportsIn_cons, hnotrep, htail]
    simp

/-- In any run whose outputs all share the same truncated relative delay,
at most one call reports. -/
theorem runChecks_le_one (k : ℤ) (calls : List (ℚ × Bool)) :
    ∀ w : WatchdogCounter,
      (∀ o ∈ (w.runChecks calls).2, pyTrunc o.2.1 = k) →
      reportsIn (w.runChecks calls).2 ≤ 1 := by
  induction calls with
  | nil => intro w _; exact Nat.zero_le 1
  | cons c rest ih =>
    obtain ⟨now, m⟩ := c
    intro w hall
    rw [runChecks_cons] at hall ⊢
    rw [reportsIn_cons]
    have hhead : pyTrunc (w.check now m).2.2.1 = k :=
      hall _ (List.mem_cons_self _ _)
    have htail : ∀ o ∈ ((w.check now m).1.runChecks rest).2,
        pyTrunc o.2.1 = k :=
      fun o ho => hall o (List.mem_cons_of_mem _ ho)
    cases hrep : (w.check now m).2.2.2 with
    | false =>
      have := ih (w.check now m).1 htail
      simpa [hrep] using this
    | true =>
      have hstate : (w.check now m).1.last_report = k := by
        rw [((check_report_spec w now m).1 hrep).2.2, hhead]
      have h0 := runChecks_no_report k rest (w.check now m).1 hstate htail
      simp [hrep, h0]

/-- Claim C7: a `check` call reports only when it is in overrun (the
returned `within_limit` is `false`) and the truncated relative delay
differs from the integer recorded at the last report; consequently, in
any sequence of `check` calls during which the truncated relative delay
does not change, at most one call reports. -/
theorem watchdog_report_once_per_level :
    (∀ (w : WatchdogCounter) (now : ℚ) (m : Bool),
        (w.check now m).2.2.2 = true →
        (w.check now m).2.1 = false ∧
        pyTrunc (w.check now m).2.2.1 ≠ w.last_report) ∧
    (∀ (w : WatchdogCounter) (calls : List (ℚ × Bool)) (k : ℤ),
        (∀ o ∈ (w.runChecks calls).2, pyTrunc o.2.1 = k) →
        reportsIn (w.runChecks calls).2 ≤ 1) := by
  constructor
  · intro w now m h
    exact ⟨((check_report_spec w now m).1 h).1,
           ((check_report_spec w now m).1 h).2.1⟩
  · intro w calls k hall
    exact runChecks_le_one k calls w hall

/-- Witness for C7: a concrete overrunning call reports with the stated
properties, and a concrete two-call run with unchanged truncated delay
reports at most once. -/
theorem watchdog_report_once_per_level_witness :
    ((({ WatchdogCounter.init 3 10 with
          last_valid := some 0 }).check 100 false).2.1 = false ∧
      pyTrunc ((({ WatchdogCounter.init 3 10 with
          last_valid := some 0 }).check 100 false)).2.2.1 ≠
        ({ WatchdogCounter.init 3 10 with
          last_valid := some 0 } : WatchdogCounter).last_report) ∧
    reportsIn
        ((WatchdogCounter.init 3 10).runChecks [(0, true), (1, false)]).2 ≤
      1 := by
  constructor
  · refine watchdog_report_once_per_level.1 _ 100 false ?_
    norm_num [WatchdogCounter.check, WatchdogCounter.init,
      WatchdogCounter.update_limit, pyRound1, pyRoundHalfEven, pyTrunc]
  · refine watchdog_report_once_per_level.2 _ [(0, true), (1, false)] 0 ?_
    norm_num [WatchdogCounter.runChecks, WatchdogCounter.check,
      WatchdogCounter.init, WatchdogCounter.update_limit, pyRound1,
      pyRoundHalfEven, pyTrunc]

/-- Witness for C10 at concrete inputs. -/
theorem success_window_invariants_witness :
    ((dequeAppend (List.replicate 10 true) false).length = 10 ∧
      dequeAppend (List.replicate 10 true) false =
        (List.replicate 10 true).drop 1 ++ [false]) ∧
    (HTTPClient.send (⟨[], HTTPClient.initial_success_tracker⟩ :
        HTTPClient ℕ) 0).2 = .ok 0 ∧
    List.foldl dequeAppend HTTPClient.initial_success_tracker
        [false, true] = List.replicate 8 true ++ [false, true] :=
  ⟨success_window_invariants.2.1 _ false (by decide),
   success_window_invariants.2.2.2.1 ℕ [] 0 (by decide),
   success_window_invariants.2.2.2.2 [false, true] (by decide)⟩
